import Mathlib

/-!
Shallow embedding of the tennis match pre-processing pipeline of this
repository (`src/pre_processing.py` and `src/utilities/helper.py`).

Conventions used throughout:
* Python floats are modelled as exact rationals (`ℚ`).
* pandas tables are modelled as total functions, keeping the source's
  stringly-typed column indexing (`cond_stats["surface_" + surface + "_wins"]`).
* Dates are modelled as integer day numbers; `pd.DateOffset` spans become
  fixed integer day spans.
* Fallible Python operations return `Except PyErr`; the pipeline's
  `except ValueError` handler is modelled explicitly.
-/

namespace TennisPrep

attribute [local semireducible] Rat.add Rat.sub Rat.mul Rat.inv

abbrev Player := ℕ

/-- Python `str.split()` (no argument): split on whitespace runs, dropping
empty pieces. Implemented by structural recursion over the character list
so that closed evaluations reduce in the kernel. -/
def splitWsAux : List Char → List Char → List (List Char)
  | [], acc => if acc.isEmpty then [] else [acc.reverse]
  | c :: rest, acc =>
    if c.isWhitespace then
      if acc.isEmpty then splitWsAux rest [] else acc.reverse :: splitWsAux rest []
    else splitWsAux rest (c :: acc)

def pySplitWs (s : String) : List String := (splitWsAux s.data []).map String.mk

/-- Python `str.split("-")`: split at every dash, keeping empty pieces. -/
def splitDashAux : List Char → List Char → List (List Char)
  | [], acc => [acc.reverse]
  | c :: rest, acc =>
    if c = '-' then acc.reverse :: splitDashAux rest [] else splitDashAux rest (c :: acc)

def pySplitDash (s : String) : List String := (splitDashAux s.data []).map String.mk

/-- Python `str.lower()`, by structural recursion over the characters. -/
def pyLower (s : String) : String := String.mk (s.data.map Char.toLower)

inductive PyErr where
  | valueError
  | indexError
  | typeError
  deriving DecidableEq, Repr

instance instDecidableEqExcept {ε α : Type} [DecidableEq ε] [DecidableEq α] :
    DecidableEq (Except ε α) := fun a b =>
  match a, b with
  | Except.error e1, Except.error e2 =>
    if h : e1 = e2 then isTrue (by rw [h]) else isFalse (by intro hc; cases hc; exact h rfl)
  | Except.error _, Except.ok _ => isFalse (by intro hc; cases hc)
  | Except.ok _, Except.error _ => isFalse (by intro hc; cases hc)
  | Except.ok a1, Except.ok a2 =>
    if h : a1 = a2 then isTrue (by rw [h]) else isFalse (by intro hc; cases hc; exact h rfl)

/-- Python's builtin `round`: banker's rounding (round half to even). -/
def pyRound (q : ℚ) : ℤ :=
  let f := ⌊q⌋
  let r := q - (f : ℚ)
  if r < 1/2 then f
  else if 1/2 < r then f + 1
  else if f % 2 = 0 then f else f + 1

/-- helper.get_surface (lines 58-61): guesses the surface as hard when the
label is the string form of a missing value. -/
def get_surface (surface : String) : String :=
  let s := pyLower surface
  if s = "nan" ∨ s = "none" then "hard" else s

/-- Python `int(s[0])` on one side of a set score: `IndexError` on an empty
string, `ValueError` when the first character is not a digit. -/
def firstDigit (s : String) : Except PyErr ℕ :=
  match s.data with
  | [] => Except.error PyErr.indexError
  | c :: _ => if c.isDigit then Except.ok (c.toNat - '0'.toNat) else Except.error PyErr.valueError

/-- helper.get_score line 78: drop the characters of the marker set `"[]RET"`. -/
def stripMarkers (s : String) : String :=
  String.mk (s.data.filter (fun c => !(['[', ']', 'R', 'E', 'T'].contains c)))

/-- helper.get_score lines 76-86: the loop over set tokens, accumulating the
first digit of each side; a token without a dash after stripping is skipped. -/
def scoreLoop : List String → ℕ → ℕ → Except PyErr (ℕ × ℕ)
  | [], winner_games, loser_games => Except.ok (winner_games, loser_games)
  | s :: rest, winner_games, loser_games =>
    let games := pySplitDash (stripMarkers s)
    if games.length = 1 then scoreLoop rest winner_games loser_games
    else
      match games with
      | g0 :: g1 :: _ =>
        match firstDigit g0 with
        | Except.error e => Except.error e
        | Except.ok d0 =>
          match firstDigit g1 with
          | Except.error e => Except.error e
          | Except.ok d1 => scoreLoop rest (winner_games + d0) (loser_games + d1)
      | _ => Except.error PyErr.indexError

/-- helper.get_score (lines 64-87). -/
def get_score (score : String) : Except PyErr (ℕ × ℕ) :=
  if score = "nan" then Except.ok (0, 0)
  else scoreLoop (pySplitWs score) 0 0

/-- pre_processing lines 183-187: `get_score` guarded by `except ValueError`,
which yields `(0, 0)`; any other exception propagates. -/
def pipeline_get_score (score : String) : Except PyErr (ℕ × ℕ) :=
  match get_score score with
  | Except.ok r => Except.ok r
  | Except.error PyErr.valueError => Except.ok (0, 0)
  | Except.error e => Except.error e

/-- helper.get_relative_total_wins (lines 132-152). -/
def get_relative_total_wins (cond_stats : String → Player → ℤ)
    (winner_id loser_id : Player) : ℚ :=
  let total_wins_winner := cond_stats "total_wins" winner_id
  let total_losses_winner := cond_stats "total_losses" winner_id
  let total_played_winner := total_wins_winner + total_losses_winner
  let total_wins_loser := cond_stats "total_wins" loser_id
  let total_losses_loser := cond_stats "total_losses" loser_id
  let total_played_loser := total_wins_loser + total_losses_loser
  let rel_total_wins_winner : ℚ :=
    if total_played_winner = 0 then 0 else (total_wins_winner : ℚ) / (total_played_winner : ℚ)
  let rel_total_wins_loser : ℚ :=
    if total_played_loser = 0 then 0 else (total_wins_loser : ℚ) / (total_played_loser : ℚ)
  rel_total_wins_winner - rel_total_wins_loser

/-- helper.get_relative_surface_wins (lines 109-129). -/
def get_relative_surface_wins (cond_stats : String → Player → ℤ)
    (winner_id loser_id : Player) (surface : String) : ℚ :=
  let surface_wins_winner := cond_stats ("surface_" ++ surface ++ "_wins") winner_id
  let surface_losses_winner := cond_stats ("surface_" ++ surface ++ "_losses") winner_id
  let surface_played_winner := surface_wins_winner + surface_losses_winner
  let surface_wins_loser := cond_stats ("surface_" ++ surface ++ "_wins") loser_id
  let surface_losses_loser := cond_stats ("surface_" ++ surface ++ "_losses") loser_id
  let surface_played_loser := surface_wins_loser + surface_losses_loser
  let rel_surface_wins_winner : ℚ :=
    if surface_played_winner = 0 then 0 else (surface_wins_winner : ℚ) / (surface_played_winner : ℚ)
  let rel_surface_wins_loser : ℚ :=
    if surface_played_loser = 0 then 0 else (surface_wins_loser : ℚ) / (surface_played_loser : ℚ)
  rel_surface_wins_winner - rel_surface_wins_loser

/-- Modelled from the spec: helper.get_relative_climate_wins is called by
pre_processing but absent from src; §4.2 specifies the same ratio-difference
as the surface variant, restricted to one climate bucket. -/
def get_relative_climate_wins (cond_stats : String → Player → ℤ)
    (winner_id loser_id : Player) (climate : String) : ℚ :=
  let climate_wins_winner := cond_stats ("climate_" ++ climate ++ "_wins") winner_id
  let climate_losses_winner := cond_stats ("climate_" ++ climate ++ "_losses") winner_id
  let climate_played_winner := climate_wins_winner + climate_losses_winner
  let climate_wins_loser := cond_stats ("climate_" ++ climate ++ "_wins") loser_id
  let climate_losses_loser := cond_stats ("climate_" ++ climate ++ "_losses") loser_id
  let climate_played_loser := climate_wins_loser + climate_losses_loser
  let rel_climate_wins_winner : ℚ :=
    if climate_played_winner = 0 then 0 else (climate_wins_winner : ℚ) / (climate_played_winner : ℚ)
  let rel_climate_wins_loser : ℚ :=
    if climate_played_loser = 0 then 0 else (climate_wins_loser : ℚ) / (climate_played_loser : ℚ)
  rel_climate_wins_winner - rel_climate_wins_loser

/-- helper.get_mutual_surface_wins (lines 155-162); any surface other than
clay or grass falls through to the hard-court table. -/
def get_mutual_surface_wins (mm_clay mm_grass mm_hard : Player → Player → ℤ)
    (surface : String) (winner_id loser_id : Player) : ℤ :=
  if surface = "clay" then mm_clay winner_id loser_id - mm_clay loser_id winner_id
  else if surface = "grass" then mm_grass winner_id loser_id - mm_grass loser_id winner_id
  else mm_hard winner_id loser_id - mm_hard loser_id winner_id

structure RankRow where
  player : Player
  ranking_date : ℤ
  rank : ℤ
  points : ℤ
  deriving DecidableEq, Repr

/-- pandas `~index.duplicated(keep="first")`: keep the first row of each date. -/
def dedupByDate (rows : List RankRow) : List RankRow :=
  (rows.foldl
    (fun acc r =>
      if acc.1.contains r.ranking_date then acc else (r.ranking_date :: acc.1, acc.2 ++ [r]))
    (([] : List ℤ), ([] : List RankRow))).2

/-- pandas `index.get_loc(date, method="pad")` over a date-ascending index:
the last entry at or before the query date, `none` (KeyError) when all
entries are later. -/
def asofLookup (rows : List RankRow) (d : ℤ) : Option RankRow :=
  (rows.filter (fun r => r.ranking_date ≤ d)).getLast?

/-- `np.max(rankings["rank"])` over the full ranking table. -/
def maxRank (rankings : List RankRow) : ℤ :=
  (rankings.map (fun r => r.rank)).foldl max 0

/-- Modelled from the spec: `pd.DateOffset(years=1)` with dates as day numbers. -/
def oneYearBefore (d : ℤ) : ℤ := d - 365

/-- helper.get_rankings (lines 165-215). Line 206 of the source reads the
loser's one-year-ago points from `winner_rankings`; that is reproduced
faithfully here. -/
def get_rankings (rankings : List RankRow) (winner_id loser_id : Player)
    (tourney_date : ℤ) : ℤ × ℤ :=
  let winner_rankings := dedupByDate (rankings.filter (fun r => r.player = winner_id))
  let loser_rankings := dedupByDate (rankings.filter (fun r => r.player = loser_id))
  let highest_numbered_ranking := maxRank rankings
  let wcur := asofLookup winner_rankings tourney_date
  let winner_current_rank := match wcur with | some r => r.rank | none => highest_numbered_ranking + 1
  let winner_current_points := match wcur with | some r => r.points | none => 0
  let lcur := asofLookup loser_rankings tourney_date
  let loser_current_rank := match lcur with | some r => r.rank | none => highest_numbered_ranking + 1
  let loser_current_points := match lcur with | some r => r.points | none => 0
  let rank_diff := winner_current_rank - loser_current_rank
  let last_year_date := oneYearBefore tourney_date
  let winner_old_points :=
    match asofLookup winner_rankings last_year_date with | some r => r.points | none => 0
  let loser_old_points :=
    match asofLookup winner_rankings last_year_date with | some r => r.points | none => 0
  let winner_points_grad := winner_current_points - winner_old_points
  let loser_points_grad := loser_current_points - loser_old_points
  (rank_diff, winner_points_grad - loser_points_grad)

/-- Refinement comparator following the spec's words (§4.4): the loser's
one-year-ago points come from the loser's own ranking history, defaulting
to 0 when that history has no entry at or before the date. -/
def get_rankings_specModel (rankings : List RankRow) (winner_id loser_id : Player)
    (tourney_date : ℤ) : ℤ × ℤ :=
  let winner_rankings := dedupByDate (rankings.filter (fun r => r.player = winner_id))
  let loser_rankings := dedupByDate (rankings.filter (fun r => r.player = loser_id))
  let highest_numbered_ranking := maxRank rankings
  let wcur := asofLookup winner_rankings tourney_date
  let winner_current_rank := match wcur with | some r => r.rank | none => highest_numbered_ranking + 1
  let winner_current_points := match wcur with | some r => r.points | none => 0
  let lcur := asofLookup loser_rankings tourney_date
  let loser_current_rank := match lcur with | some r => r.rank | none => highest_numbered_ranking + 1
  let loser_current_points := match lcur with | some r => r.points | none => 0
  let rank_diff := winner_current_rank - loser_current_rank
  let last_year_date := oneYearBefore tourney_date
  let winner_old_points :=
    match asofLookup winner_rankings last_year_date with | some r => r.points | none => 0
  let loser_old_points :=
    match asofLookup loser_rankings last_year_date with | some r => r.points | none => 0
  let winner_points_grad := winner_current_points - winner_old_points
  let loser_points_grad := loser_current_points - loser_old_points
  (rank_diff, winner_points_grad - loser_points_grad)

structure Tourney where
  location : String
  climate : String
  tourney_name : String
  country : String
  deriving DecidableEq, Repr

/-- pre_processing lines 72-78: climate of the first tournament row whose
location matches, defaulting to "tempered" when the lookup is empty. -/
def lookupClimate (tourneys : List Tourney) (location : String) : String :=
  match (tourneys.filter (fun t => t.location = location)).head? with
  | some t => t.climate
  | none => "tempered"

/-- Modelled from the spec: helper.filter_tourney_name is called by
pre_processing but absent from src; it derives the location key used for
the climate lookup from the raw tournament name, modelled as the identity. -/
def filter_tourney_name (tourney_name : String) : String := tourney_name

/-- One row of the raw match archive, with the fields pre_processing reads.
Dates are integer day numbers; ages are kept integral since only their
difference enters the integer output matrix. -/
structure RawMatch where
  winner_id : Player
  loser_id : Player
  tourney_date : ℤ
  surface : String
  tourney_name : String
  tourney_level : String
  tourney_id : ℕ
  match_num : ℕ
  score : String
  winner_age : ℤ
  loser_age : ℤ
  winner_ioc : String
  loser_ioc : String
  deriving DecidableEq, Repr

/-- Modelled from the spec: helper.get_home_advantage is called by
pre_processing but absent from src; §6 gives a per-tournament-name home
country whose lookup may miss, in which case home advantage defaults to 0. -/
def get_home_advantage (winner_ioc loser_ioc : String) (tourneys : List Tourney)
    (tourney_name : String) : ℤ :=
  match (tourneys.filter (fun t => t.tourney_name = tourney_name)).head? with
  | none => 0
  | some t => (if winner_ioc = t.country then 1 else 0) - (if loser_ioc = t.country then 1 else 0)

/-- Modelled from the spec: helper.get_recent_performance is called by
pre_processing but absent from src; §4.5 specifies the §4.2 relative win
ratio difference computed only over the matches inside the current window. -/
def get_recent_performance (winner_id loser_id : Player) (recent_matches : List RawMatch)
    (tourney_date : ℤ) : ℚ :=
  let ww := ((recent_matches.filter (fun m => m.winner_id = winner_id)).length : ℤ)
  let wl := ((recent_matches.filter (fun m => m.loser_id = winner_id)).length : ℤ)
  let lw := ((recent_matches.filter (fun m => m.winner_id = loser_id)).length : ℤ)
  let ll := ((recent_matches.filter (fun m => m.loser_id = loser_id)).length : ℤ)
  (if ww + wl = 0 then 0 else (ww : ℚ) / ((ww + wl : ℤ) : ℚ)) -
    (if lw + ll = 0 then 0 else (lw : ℚ) / ((lw + ll : ℤ) : ℚ))

/-- Modelled from the spec: helper.get_tourney_games is called by
pre_processing but absent from src; §4.5 specifies a running score within
the current tournament over window matches with strictly smaller match
numbers, difference returned. -/
def get_tourney_games (winner_id loser_id : Player) (recent_matches : List RawMatch)
    (tourney_id : ℕ) (match_num : ℕ) : ℤ :=
  let f := recent_matches.filter (fun m => m.tourney_id = tourney_id ∧ m.match_num < match_num)
  ((f.filter (fun m => m.winner_id = winner_id)).length : ℤ) -
    ((f.filter (fun m => m.winner_id = loser_id)).length : ℤ)

/-- Modelled from the spec: `pd.DateOffset(months=3)` (the window's 3-month
retention span) with dates as day numbers and a fixed day span. -/
def threeMonthsBefore (d : ℤ) : ℤ := d - 91

/-- The mutable aggregate tables of the sequential pass: the conditional
stats table (stringly-keyed columns), the three surface mutual-win tables
and their sum, and the mutual-games table. -/
structure Store where
  cond_stats : String → Player → ℤ
  mutual_matches : Player → Player → ℤ
  mm_clay : Player → Player → ℤ
  mm_grass : Player → Player → ℤ
  mm_hard : Player → Player → ℤ
  mutual_score : Player → Player → ℤ

/-- Externally supplied configuration of process_matches. `tw` models
helper.get_time_weight's per-date decayed scalar weight (spec §4.1,
`exp(-days/(365*3))`); it is kept as a rational-valued oracle because the
exponential is irrational and the loop treats it as an opaque scalar. -/
structure Config where
  t_weights : String → ℚ
  base_weight : ℤ
  t_levels : String → ℤ
  surfaces : String → ℤ
  tourneys : List Tourney
  rankings : List RankRow
  tw : ℤ → ℚ

/-- The loop state of process_matches: the aggregate tables, the recent
match window with its reference date and retention cutoff, and the row
index used by the balancing parity rule. -/
structure ProcState where
  store : Store
  recent_matches : List RawMatch
  current_tourney_date : ℤ
  date_limit : ℤ
  i : ℕ

/-- One row of the output matrix (np.int64 columns, pre_processing line 50). -/
structure MatchRow where
  tourney_date : ℤ
  rel_total_wins : ℤ
  rel_surface_wins : ℤ
  mutual_wins : ℤ
  mutual_surface_wins : ℤ
  mutual_games : ℤ
  rank_diff : ℤ
  points_grad_diff : ℤ
  home_advantage : ℤ
  rel_climate_wins : ℤ
  rel_recent_wins : ℤ
  rel_tourney_games : ℤ
  tourney_level : ℤ
  player_1 : ℤ
  player_2 : ℤ
  surface : ℤ
  age_diff : ℤ
  outcome : ℤ
  deriving DecidableEq, Repr

/-- Negation of a whole row, as `-match` negates every entry of the pandas
Series (all entries are numeric in the typed model). -/
def rowNeg (r : MatchRow) : MatchRow where
  tourney_date := -r.tourney_date
  rel_total_wins := -r.rel_total_wins
  rel_surface_wins := -r.rel_surface_wins
  mutual_wins := -r.mutual_wins
  mutual_surface_wins := -r.mutual_surface_wins
  mutual_games := -r.mutual_games
  rank_diff := -r.rank_diff
  points_grad_diff := -r.points_grad_diff
  home_advantage := -r.home_advantage
  rel_climate_wins := -r.rel_climate_wins
  rel_recent_wins := -r.rel_recent_wins
  rel_tourney_games := -r.rel_tourney_games
  tourney_level := -r.tourney_level
  player_1 := -r.player_1
  player_2 := -r.player_2
  surface := -r.surface
  age_diff := -r.age_diff
  outcome := -r.outcome

/-- pre_processing lines 86-135: the feature reads for one match, before
balancing; the fields set only after balancing are still the zeros of the
pre-allocated matrix. -/
def rawFeatureRow (cfg : Config) (st : ProcState) (raw : RawMatch) : MatchRow :=
  let winner_id := raw.winner_id
  let loser_id := raw.loser_id
  let surface := get_surface raw.surface
  let location := filter_tourney_name raw.tourney_name
  let climate := lookupClimate cfg.tourneys location
  let rp := get_rankings cfg.rankings winner_id loser_id raw.tourney_date
  { tourney_date := 0
    rel_total_wins :=
      pyRound ((cfg.base_weight : ℚ) * get_relative_total_wins st.store.cond_stats winner_id loser_id)
    rel_surface_wins :=
      pyRound ((cfg.base_weight : ℚ) *
        get_relative_surface_wins st.store.cond_stats winner_id loser_id surface)
    mutual_wins := st.store.mutual_matches winner_id loser_id - st.store.mutual_matches loser_id winner_id
    mutual_surface_wins :=
      get_mutual_surface_wins st.store.mm_clay st.store.mm_grass st.store.mm_hard surface winner_id loser_id
    mutual_games := st.store.mutual_score winner_id loser_id - st.store.mutual_score loser_id winner_id
    rank_diff := rp.1
    points_grad_diff := rp.2
    home_advantage := get_home_advantage raw.winner_ioc raw.loser_ioc cfg.tourneys raw.tourney_name
    rel_climate_wins :=
      pyRound ((cfg.base_weight : ℚ) *
        get_relative_climate_wins st.store.cond_stats winner_id loser_id climate)
    rel_recent_wins :=
      pyRound ((cfg.base_weight : ℚ) *
        get_recent_performance winner_id loser_id st.recent_matches raw.tourney_date)
    rel_tourney_games :=
      get_tourney_games winner_id loser_id st.recent_matches raw.tourney_id raw.match_num
    tourney_level := 0
    player_1 := 0
    player_2 := 0
    surface := 0
    age_diff := raw.winner_age - raw.loser_age
    outcome := 1 }

/-- pre_processing lines 145-151: the non-numeric fields set after balancing. -/
def finalizeRow (cfg : Config) (raw : RawMatch) (r : MatchRow) : MatchRow :=
  { r with
    tourney_date := raw.tourney_date
    player_1 := (raw.winner_id : ℤ)
    player_2 := (raw.loser_id : ℤ)
    tourney_level := cfg.t_levels raw.tourney_level
    surface := cfg.surfaces (get_surface raw.surface) }

/-- pre_processing lines 86-154: feature reads, the parity-based balancing
negation, and the post-balancing field assignments, producing the row that
is written into the output matrix. -/
def readRow (cfg : Config) (st : ProcState) (raw : RawMatch) : MatchRow :=
  finalizeRow cfg raw
    (if st.i % 2 = 0 then rowNeg (rawFeatureRow cfg st raw) else rawFeatureRow cfg st raw)

/-- Pointwise increment of one stringly-keyed conditional-stats cell. -/
def csAdd (cs : String → Player → ℤ) (k : String) (p : Player) (v : ℤ) :
    String → Player → ℤ :=
  fun k2 p2 => if k2 = k ∧ p2 = p then cs k2 p2 + v else cs k2 p2

/-- Pointwise increment of one cell of a pairwise table. -/
def mAdd (m : Player → Player → ℤ) (a b : Player) (v : ℤ) : Player → Player → ℤ :=
  fun a2 b2 => if a2 = a ∧ b2 = b then m a2 b2 + v else m a2 b2

/-- pre_processing lines 161-190: the per-match store updates, given the
surface/climate labels and the games parsed from the score. -/
def updateStores (cfg : Config) (store : Store) (winner_id loser_id : Player)
    (tourney_level : String) (time_weight : ℚ) (surface climate : String)
    (winner_games loser_games : ℕ) : Store :=
  let match_d_weight := pyRound ((cfg.base_weight : ℚ) * time_weight)
  let match_dt_weight :=
    pyRound ((cfg.base_weight : ℚ) * time_weight * cfg.t_weights tourney_level)
  let cs1 := csAdd store.cond_stats "total_wins" winner_id match_dt_weight
  let cs2 := csAdd cs1 ("surface_" ++ surface ++ "_wins") winner_id match_d_weight
  let cs3 := csAdd cs2 ("climate_" ++ climate ++ "_wins") winner_id match_d_weight
  let cs4 := csAdd cs3 "total_losses" loser_id match_dt_weight
  let cs5 := csAdd cs4 ("surface_" ++ surface ++ "_losses") loser_id match_d_weight
  let cs6 := csAdd cs5 ("climate_" ++ climate ++ "_losses") loser_id match_d_weight
  let mm := mAdd store.mutual_matches winner_id loser_id match_d_weight
  let mm_clay2 :=
    if surface = "clay" then mAdd store.mm_clay winner_id loser_id match_d_weight
    else store.mm_clay
  let mm_grass2 :=
    if surface ≠ "clay" ∧ surface = "grass" then mAdd store.mm_grass winner_id loser_id match_d_weight
    else store.mm_grass
  let mm_hard2 :=
    if surface ≠ "clay" ∧ surface ≠ "grass" then mAdd store.mm_hard winner_id loser_id match_d_weight
    else store.mm_hard
  let ms1 := mAdd store.mutual_score winner_id loser_id
    (pyRound ((cfg.base_weight : ℚ) * time_weight * (winner_games : ℚ)))
  let ms2 := mAdd ms1 loser_id winner_id
    (pyRound ((cfg.base_weight : ℚ) * time_weight * (loser_games : ℚ)))
  { cond_stats := cs6
    mutual_matches := mm
    mm_clay := mm_clay2
    mm_grass := mm_grass2
    mm_hard := mm_hard2
    mutual_score := ms2 }

/-- pre_processing lines 81-84: when the tournament date strictly advances,
move the window's reference date, shift the retention cutoff, and prune
matches older than the new cutoff. -/
def advanceWindow (st : ProcState) (tourney_date : ℤ) : ProcState :=
  if st.current_tourney_date < tourney_date then
    { st with
      current_tourney_date := tourney_date
      date_limit := threeMonthsBefore tourney_date
      recent_matches :=
        st.recent_matches.filter (fun m => threeMonthsBefore tourney_date ≤ m.tourney_date) }
  else st

/-- pre_processing lines 156-194: record the match outcome after its row has
been produced — append it to the recent window and update every aggregate
table. A score whose parse raises an uncaught exception aborts the run (the
partial in-place mutation the interpreter would leave behind is not
modelled; no row is produced past that point either way). -/
def applyOutcome (cfg : Config) (st : ProcState) (raw : RawMatch) : Except PyErr ProcState :=
  let surface := get_surface raw.surface
  let climate := lookupClimate cfg.tourneys (filter_tourney_name raw.tourney_name)
  let time_weight := cfg.tw raw.tourney_date
  match pipeline_get_score raw.score with
  | Except.error e => Except.error e
  | Except.ok (winner_games, loser_games) =>
    Except.ok
      { st with
        store := updateStores cfg st.store raw.winner_id raw.loser_id raw.tourney_level
          time_weight surface climate winner_games loser_games
        recent_matches := st.recent_matches ++ [raw]
        i := st.i + 1 }

/-- One iteration of the loop of pre_processing lines 64-194: window
maintenance for the incoming date, then the feature read producing the
output row, then the outcome update. -/
def processOne (cfg : Config) (st : ProcState) (raw : RawMatch) :
    Except PyErr (MatchRow × ProcState) :=
  let stA := advanceWindow st raw.tourney_date
  match applyOutcome cfg stA raw with
  | Except.error e => Except.error e
  | Except.ok st2 => Except.ok (readRow cfg stA raw, st2)

/-- The whole sequential pass: rows in emission order plus the final state. -/
def runProcess (cfg : Config) : ProcState → List RawMatch → Except PyErr (List MatchRow × ProcState)
  | st, [] => Except.ok ([], st)
  | st, raw :: rest =>
    match processOne cfg st raw with
    | Except.error e => Except.error e
    | Except.ok pr =>
      match runProcess cfg pr.2 rest with
      | Except.error e => Except.error e
      | Except.ok rs => Except.ok (pr.1 :: rs.1, rs.2)

/-- State component of a successful run, with a default for the error case. -/
def okState (r : Except PyErr (List MatchRow × ProcState)) (dflt : ProcState) : ProcState :=
  match r with
  | Except.ok p => p.2
  | Except.error _ => dflt

/-- Result state of a successful outcome update, with the pre-state as
default for the error case. -/
def okOutcome (cfg : Config) (stA : ProcState) (raw : RawMatch) : ProcState :=
  match applyOutcome cfg stA raw with
  | Except.ok s => s
  | Except.error _ => stA

/-- The loop state reached after processing exactly the first `i` matches
of the stream, starting from `st`. -/
def prefixState (cfg : Config) (st : ProcState) (ms : List RawMatch) (i : ℕ) : ProcState :=
  okState (runProcess cfg st (ms.take i)) st

/-- The dates of a match stream never decrease, starting from a reference
date (the stream is processed sorted ascending by tournament date). -/
def datesMono : ℤ → List RawMatch → Prop
  | _, [] => True
  | d, m :: rest => d ≤ m.tourney_date ∧ datesMono m.tourney_date rest

instance instDecidableDatesMono : ∀ d ms, Decidable (datesMono d ms)
  | _, [] => isTrue trivial
  | d, m :: rest =>
    match inferInstanceAs (Decidable (d ≤ m.tourney_date)),
      instDecidableDatesMono m.tourney_date rest with
    | isTrue h1, isTrue h2 => isTrue ⟨h1, h2⟩
    | isFalse h1, _ => isFalse (fun h => h1 h.1)
    | _, isFalse h2 => isFalse (fun h => h2 h.2)

/-- A dynamically typed pandas cell, for the balancing negation of
pre_processing lines 137-143: negation of a numeric cell succeeds, negation
of a non-numeric cell raises TypeError. -/
inductive PyVal where
  | int (n : ℤ)
  | str (s : String)
  deriving DecidableEq, Repr

def pyNeg : PyVal → Except PyErr PyVal
  | PyVal.int n => Except.ok (PyVal.int (-n))
  | PyVal.str _ => Except.error PyErr.typeError

/-- Negation of a whole dynamically typed row (`-match` on the Series). -/
def seriesNeg (row : List PyVal) : Except PyErr (List PyVal) := row.mapM pyNeg

/-- pre_processing lines 137-143 on a dynamically typed row: for even
indices, try `-match`; on TypeError the row is printed and the loop simply
continues with the un-negated row, which is then emitted. -/
def balanceStep (i : ℕ) (row : List PyVal) : List PyVal :=
  if i % 2 = 0 then
    match seriesNeg row with
    | Except.ok r => r
    | Except.error _ => row
  else row

/-! Concrete instances used to evaluate the embedding on closed inputs. -/

def zeroStore : Store where
  cond_stats := fun _ _ => 0
  mutual_matches := fun _ _ => 0
  mm_clay := fun _ _ => 0
  mm_grass := fun _ _ => 0
  mm_hard := fun _ _ => 0
  mutual_score := fun _ _ => 0

def exRankings : List RankRow :=
  [⟨1, 0, 1, 100⟩, ⟨2, 0, 2, 50⟩, ⟨1, 400, 1, 110⟩, ⟨2, 400, 2, 80⟩]

def exCfg : Config where
  t_weights := fun _ => 1
  base_weight := 10
  t_levels := fun _ => 1
  surfaces := fun _ => 2
  tourneys := [⟨"Stockholm", "cold", "Stockholm Open", "SWE"⟩]
  rankings := exRankings
  tw := fun _ => 1/2

def exSt0 : ProcState where
  store := zeroStore
  recent_matches := []
  current_tourney_date := 100
  date_limit := threeMonthsBefore 100
  i := 0

def exM1 : RawMatch where
  winner_id := 1
  loser_id := 2
  tourney_date := 100
  surface := "clay"
  tourney_name := "Stockholm Open"
  tourney_level := "A"
  tourney_id := 5
  match_num := 1
  score := "6-4 6-4"
  winner_age := 25
  loser_age := 24
  winner_ioc := "SWE"
  loser_ioc := "GER"

def exM2 : RawMatch :=
  { exM1 with tourney_date := 130, match_num := 2, score := "6-3" }

def exMs : List RawMatch := [exM1, exM2]

def exRun : Except PyErr (List MatchRow × ProcState) := runProcess exCfg exSt0 exMs

def exRows : List MatchRow :=
  match exRun with
  | Except.ok p => p.1
  | Except.error _ => []

def exStF : ProcState :=
  match exRun with
  | Except.ok p => p.2
  | Except.error _ => exSt0

def exRawB : RawMatch := { exM1 with winner_id := 7, loser_id := 9 }

def csC6 : String → Player → ℤ := fun k p => if k = "total_wins" ∧ p = 2 then 1 else 0

def cfgC : Config where
  t_weights := fun _ => 1
  base_weight := 100
  t_levels := fun _ => 1
  surfaces := fun _ => 2
  tourneys := []
  rankings := []
  tw := fun _ => 57/125

def stC : ProcState where
  store := zeroStore
  recent_matches := []
  current_tourney_date := 0
  date_limit := threeMonthsBefore 0
  i := 0

def rawC : RawMatch :=
  { exM1 with tourney_date := 0, score := "6-0", tourney_name := "X", winner_ioc := "A", loser_ioc := "B" }

def st2C : ProcState :=
  match applyOutcome cfgC stC rawC with
  | Except.ok s => s
  | Except.error _ => stC

/-! ### Helper lemmas -/

theorem ratio_bounds (a b : ℤ) (ha : 0 ≤ a) (hb : 0 ≤ b) :
    0 ≤ (if a + b = 0 then (0 : ℚ) else (a : ℚ) / ((a + b : ℤ) : ℚ)) ∧
      (if a + b = 0 then (0 : ℚ) else (a : ℚ) / ((a + b : ℤ) : ℚ)) ≤ 1 := by
  split
  · exact ⟨le_refl 0, zero_le_one⟩
  · rename_i hne
    have hpos : (0 : ℤ) < a + b := lt_of_le_of_ne (by omega) (Ne.symm hne)
    have hq : (0 : ℚ) < ((a + b : ℤ) : ℚ) := by exact_mod_cast hpos
    refine ⟨div_nonneg (by exact_mod_cast ha) hq.le, ?_⟩
    rw [div_le_one hq]
    exact_mod_cast (by omega : a ≤ a + b)

theorem key_len_ne (p s q lit : String)
    (h : p.length + s.length + q.length ≠ lit.length) : p ++ s ++ q ≠ lit := by
  intro he
  have hl := congrArg String.length he
  simp only [String.length_append] at hl
  omega

theorem key_len_ne2 (p s q p2 s2 q2 : String)
    (h : p.length + s.length + q.length ≠ p2.length + s2.length + q2.length) :
    p ++ s ++ q ≠ p2 ++ s2 ++ q2 := by
  intro he
  have hl := congrArg String.length he
  simp only [String.length_append] at hl
  omega

theorem surface_ne_climate_key (s x c y : String) :
    "surface_" ++ s ++ x ≠ "climate_" ++ c ++ y := by
  intro h
  have hd := congrArg String.data h
  simp only [String.data_append] at hd
  simp only [List.cons_append] at hd
  injection hd with ha hb
  exact absurd ha (by decide)

theorem sw_ne_tl (s : String) : "surface_" ++ s ++ "_wins" ≠ "total_losses" :=
  key_len_ne "surface_" s "_wins" "total_losses" (by
    have e1 : "surface_".length = 8 := rfl
    have e2 : "_wins".length = 5 := rfl
    have e3 : "total_losses".length = 12 := rfl
    omega)

theorem cw_ne_tl (c : String) : "climate_" ++ c ++ "_wins" ≠ "total_losses" :=
  key_len_ne "climate_" c "_wins" "total_losses" (by
    have e1 : "climate_".length = 8 := rfl
    have e2 : "_wins".length = 5 := rfl
    have e3 : "total_losses".length = 12 := rfl
    omega)

theorem sl_ne_tw (s : String) : "surface_" ++ s ++ "_losses" ≠ "total_wins" :=
  key_len_ne "surface_" s "_losses" "total_wins" (by
    have e1 : "surface_".length = 8 := rfl
    have e2 : "_losses".length = 7 := rfl
    have e3 : "total_wins".length = 10 := rfl
    omega)

theorem cl_ne_tw (c : String) : "climate_" ++ c ++ "_losses" ≠ "total_wins" :=
  key_len_ne "climate_" c "_losses" "total_wins" (by
    have e1 : "climate_".length = 8 := rfl
    have e2 : "_losses".length = 7 := rfl
    have e3 : "total_wins".length = 10 := rfl
    omega)

theorem sl_ne_sw_self (s : String) :
    "surface_" ++ s ++ "_losses" ≠ "surface_" ++ s ++ "_wins" :=
  key_len_ne2 "surface_" s "_losses" "surface_" s "_wins" (by
    have e1 : "surface_".length = 8 := rfl
    have e2 : "_losses".length = 7 := rfl
    have e3 : "_wins".length = 5 := rfl
    omega)

theorem cl_ne_cw_self (c : String) :
    "climate_" ++ c ++ "_losses" ≠ "climate_" ++ c ++ "_wins" :=
  key_len_ne2 "climate_" c "_losses" "climate_" c "_wins" (by
    have e1 : "climate_".length = 8 := rfl
    have e2 : "_losses".length = 7 := rfl
    have e3 : "_wins".length = 5 := rfl
    omega)

theorem applyOutcome_ok_elim (cfg : Config) (st : ProcState) (raw : RawMatch) (st2 : ProcState)
    (h : applyOutcome cfg st raw = Except.ok st2) :
    ∃ wg lg, pipeline_get_score raw.score = Except.ok (wg, lg) ∧
      st2 = { st with
        store := updateStores cfg st.store raw.winner_id raw.loser_id raw.tourney_level
          (cfg.tw raw.tourney_date) (get_surface raw.surface)
          (lookupClimate cfg.tourneys (filter_tourney_name raw.tourney_name)) wg lg
        recent_matches := st.recent_matches ++ [raw]
        i := st.i + 1 } := by
  unfold applyOutcome at h
  cases hsc : pipeline_get_score raw.score with
  | error e => rw [hsc] at h; cases h
  | ok p =>
    obtain ⟨wg, lg⟩ := p
    rw [hsc] at h
    injection h with h2
    exact ⟨wg, lg, rfl, h2.symm⟩

theorem processOne_ok_elim (cfg : Config) (st : ProcState) (raw : RawMatch)
    (row : MatchRow) (st2 : ProcState)
    (h : processOne cfg st raw = Except.ok (row, st2)) :
    applyOutcome cfg (advanceWindow st raw.tourney_date) raw = Except.ok st2 ∧
    row = readRow cfg (advanceWindow st raw.tourney_date) raw := by
  simp only [processOne] at h
  cases ha : applyOutcome cfg (advanceWindow st raw.tourney_date) raw with
  | error e => rw [ha] at h; cases h
  | ok s =>
    rw [ha] at h
    dsimp only at h
    injection h with h1
    have h2 := congrArg Prod.fst h1
    have h3 := congrArg Prod.snd h1
    dsimp only at h2 h3
    exact ⟨by rw [h3], h2.symm⟩

theorem processOne_ok_intro (cfg : Config) (st : ProcState) (raw : RawMatch) (st2 : ProcState)
    (ha : applyOutcome cfg (advanceWindow st raw.tourney_date) raw = Except.ok st2) :
    processOne cfg st raw =
      Except.ok (readRow cfg (advanceWindow st raw.tourney_date) raw, st2) := by
  simp only [processOne]
  rw [ha]

theorem runProcess_cons_elim (cfg : Config) (st : ProcState) (raw : RawMatch)
    (rest : List RawMatch) (rows : List MatchRow) (stF : ProcState)
    (h : runProcess cfg st (raw :: rest) = Except.ok (rows, stF)) :
    ∃ row st2 rows2,
      processOne cfg st raw = Except.ok (row, st2) ∧
      runProcess cfg st2 rest = Except.ok (rows2, stF) ∧
      rows = row :: rows2 := by
  simp only [runProcess] at h
  cases hp : processOne cfg st raw with
  | error e => rw [hp] at h; cases h
  | ok pr =>
    obtain ⟨row0, st0⟩ := pr
    rw [hp] at h
    dsimp only at h
    cases hr : runProcess cfg st0 rest with
    | error e => rw [hr] at h; cases h
    | ok rs =>
      obtain ⟨rows0, stF0⟩ := rs
      rw [hr] at h
      dsimp only at h
      injection h with h1
      have h2 := congrArg Prod.fst h1
      have h3 := congrArg Prod.snd h1
      dsimp only at h2 h3
      exact ⟨row0, st0, rows0, rfl, by rw [hr, h3], h2.symm⟩

theorem runProcess_cons_intro (cfg : Config) (st : ProcState) (raw : RawMatch)
    (rest : List RawMatch) (row : MatchRow) (st2 : ProcState)
    (rows2 : List MatchRow) (stF : ProcState)
    (hp : processOne cfg st raw = Except.ok (row, st2))
    (hr : runProcess cfg st2 rest = Except.ok (rows2, stF)) :
    runProcess cfg st (raw :: rest) = Except.ok (row :: rows2, stF) := by
  simp only [runProcess, hp]
  rw [hr]

theorem advanceWindow_i (st : ProcState) (d : ℤ) : (advanceWindow st d).i = st.i := by
  unfold advanceWindow
  split <;> rfl

theorem advanceWindow_store (st : ProcState) (d : ℤ) :
    (advanceWindow st d).store = st.store := by
  unfold advanceWindow
  split <;> rfl

/-! ### Claim theorems -/

/-- C3: the claim states that `points_grad_diff` is (winner now − winner one
year ago) − (loser now − loser one year ago) with each one-year-ago lookup
over that player's own history. The source (helper.py line 206) reads the
loser's one-year-ago points from the winner's history instead; the spec's
§9 flags this as a defect to fix. At the input below the code yields 30
while the claimed formula yields −20. -/
theorem ranking_gradient_bug_eval :
    get_rankings exRankings 1 2 400 = (-1, 30) ∧
    get_rankings_specModel exRankings 1 2 400 = (-1, -20) ∧
    ((30 : ℤ) ≠ -20) := by decide

/-- C4: the claim (and spec §7/§9) requires the run to abort when the
balancing negation hits a non-numeric row. The source catches the
TypeError, prints the row, and continues: `balanceStep` is total and the
offending row is emitted un-negated, so processing silently continues. -/
theorem balancing_typeerror_swallowed_eval :
    seriesNeg [PyVal.int 3, PyVal.str "x"] = Except.error PyErr.typeError ∧
    balanceStep 0 [PyVal.int 3, PyVal.str "x"] = [PyVal.int 3, PyVal.str "x"] := by decide

/-- C5 counterexample: the claim says every malformed score string yields
(0,0) rather than failing, but a set token with a dash and an empty side
("6-") raises IndexError, which the pipeline's `except ValueError` handler
does not catch. -/
theorem score_pipeline_counterexample :
    pipeline_get_score "6-" ≠ Except.ok (0, 0) := by decide

/-- C5 (amended): the concrete mappings hold ("6-4 3-6 7-5" to (16,15),
"6-4 RET" to (6,4) with the dash-free token skipped, "nan" and "unknown"
to (0,0)); a malformed score that raises ValueError (non-digit where a
digit is summed) yields (0,0) through the pipeline handler; but a set
token with a dash and an empty side raises an uncaught IndexError. -/
theorem score_parser_amended :
    get_score "6-4 3-6 7-5" = Except.ok (16, 15) ∧
    get_score "6-4 RET" = Except.ok (6, 4) ∧
    get_score "nan" = Except.ok (0, 0) ∧
    get_score "unknown" = Except.ok (0, 0) ∧
    (∀ s, get_score s = Except.error PyErr.valueError → pipeline_get_score s = Except.ok (0, 0)) ∧
    pipeline_get_score "6-" = Except.error PyErr.indexError := by
  refine ⟨by decide, by decide, by decide, by decide, ?_, by decide⟩
  intro s h
  unfold pipeline_get_score
  rw [h]

/-- C5 witness: a ValueError-malformed score is zeroed by the pipeline. -/
theorem score_parser_amended_witness :
    pipeline_get_score "6-4 W-O" = Except.ok (0, 0) :=
  score_parser_amended.2.2.2.2.1 "6-4 W-O" (by decide)

/-- C6 counterexample: player 1 has zero recorded matches but the function
does not return 0 against opponent 2, who has a positive win ratio. -/
theorem rel_wins_zero_counterexample :
    csC6 "total_wins" 1 + csC6 "total_losses" 1 = 0 ∧
    get_relative_total_wins csC6 1 2 = -1 ∧ ((-1 : ℚ) ≠ 0) := by decide

/-- C6 (amended): a zero-match player contributes a 0 win ratio (the
division guard), so the function returns 0 when both players have zero
recorded matches; and with nonnegative counters the result always lies in
[-1, 1]. Likewise for the surface variant. -/
theorem rel_wins_amended (cs : String → Player → ℤ) (w l : Player) (s : String)
    (h1 : 0 ≤ cs "total_wins" w) (h2 : 0 ≤ cs "total_losses" w)
    (h3 : 0 ≤ cs "total_wins" l) (h4 : 0 ≤ cs "total_losses" l)
    (h5 : 0 ≤ cs ("surface_" ++ s ++ "_wins") w) (h6 : 0 ≤ cs ("surface_" ++ s ++ "_losses") w)
    (h7 : 0 ≤ cs ("surface_" ++ s ++ "_wins") l) (h8 : 0 ≤ cs ("surface_" ++ s ++ "_losses") l) :
    (cs "total_wins" w + cs "total_losses" w = 0 → cs "total_wins" l + cs "total_losses" l = 0 →
      get_relative_total_wins cs w l = 0) ∧
    (cs ("surface_" ++ s ++ "_wins") w + cs ("surface_" ++ s ++ "_losses") w = 0 →
      cs ("surface_" ++ s ++ "_wins") l + cs ("surface_" ++ s ++ "_losses") l = 0 →
      get_relative_surface_wins cs w l s = 0) ∧
    (-1 ≤ get_relative_total_wins cs w l ∧ get_relative_total_wins cs w l ≤ 1) ∧
    (-1 ≤ get_relative_surface_wins cs w l s ∧ get_relative_surface_wins cs w l s ≤ 1) := by
  have hw := ratio_bounds (cs "total_wins" w) (cs "total_losses" w) h1 h2
  have hlo := ratio_bounds (cs "total_wins" l) (cs "total_losses" l) h3 h4
  have hsw := ratio_bounds (cs ("surface_" ++ s ++ "_wins") w)
    (cs ("surface_" ++ s ++ "_losses") w) h5 h6
  have hsl := ratio_bounds (cs ("surface_" ++ s ++ "_wins") l)
    (cs ("surface_" ++ s ++ "_losses") l) h7 h8
  simp only [get_relative_total_wins, get_relative_surface_wins]
  refine ⟨?_, ?_, ?_, ?_⟩
  · intro hzw hzl
    rw [if_pos hzw, if_pos hzl]
    norm_num
  · intro hzw hzl
    rw [if_pos hzw, if_pos hzl]
    norm_num
  · constructor
    · linarith [hw.1, hw.2, hlo.1, hlo.2]
    · linarith [hw.1, hw.2, hlo.1, hlo.2]
  · constructor
    · linarith [hsw.1, hsw.2, hsl.1, hsl.2]
    · linarith [hsw.1, hsw.2, hsl.1, hsl.2]

/-- C6 witness: bounds instantiated at a concrete store. -/
theorem rel_wins_amended_witness :
    -1 ≤ get_relative_total_wins csC6 1 2 ∧ get_relative_total_wins csC6 1 2 ≤ 1 :=
  (rel_wins_amended csC6 1 2 "clay" (by decide) (by decide) (by decide) (by decide)
    (by decide) (by decide) (by decide) (by decide)).2.2.1

/-- C9 counterexample: with base weight 100 and time weight 57/125, the
decay weight is round(45.6) = 46, the winner won 6 games, and the
mutual-games entry increases by round(45.6 * 6) = round(273.6) = 274,
which is not the claimed decay-weight-times-games 46 * 6 = 276. -/
theorem h2h_games_weight_counterexample :
    applyOutcome cfgC stC rawC = Except.ok st2C ∧
    pipeline_get_score rawC.score = Except.ok (6, 0) ∧
    st2C.store.mutual_matches 1 2 = stC.store.mutual_matches 1 2 + 46 ∧
    st2C.store.mm_clay 1 2 = stC.store.mm_clay 1 2 + 46 ∧
    st2C.store.mutual_score 1 2 = stC.store.mutual_score 1 2 + 274 ∧
    ((46 : ℤ) * 6 ≠ 274) :=
  ⟨rfl, by decide, by decide, by decide, by decide, by decide⟩

/-- C9 (amended): per match, the winner-over-loser entries of the overall
and matching-surface mutual-win tables each increase by exactly the decay
weight round(base_weight * time_weight); the mutual-games entries increase,
for each direction, by round(base_weight * time_weight * games_won_by_that
side) — the rounding is applied to the product, which differs in general
from decay weight times games. -/
theorem h2h_update_amended (cfg : Config) (st : ProcState) (raw : RawMatch) (st2 : ProcState)
    (wg lg : ℕ) (hne : raw.winner_id ≠ raw.loser_id)
    (hscore : pipeline_get_score raw.score = Except.ok (wg, lg))
    (happly : applyOutcome cfg st raw = Except.ok st2) :
    (st2.store.mutual_matches raw.winner_id raw.loser_id =
      st.store.mutual_matches raw.winner_id raw.loser_id +
        pyRound ((cfg.base_weight : ℚ) * cfg.tw raw.tourney_date)) ∧
    (get_surface raw.surface = "clay" →
      st2.store.mm_clay raw.winner_id raw.loser_id =
        st.store.mm_clay raw.winner_id raw.loser_id +
          pyRound ((cfg.base_weight : ℚ) * cfg.tw raw.tourney_date)) ∧
    (get_surface raw.surface = "grass" →
      st2.store.mm_grass raw.winner_id raw.loser_id =
        st.store.mm_grass raw.winner_id raw.loser_id +
          pyRound ((cfg.base_weight : ℚ) * cfg.tw raw.tourney_date)) ∧
    (get_surface raw.surface ≠ "clay" → get_surface raw.surface ≠ "grass" →
      st2.store.mm_hard raw.winner_id raw.loser_id =
        st.store.mm_hard raw.winner_id raw.loser_id +
          pyRound ((cfg.base_weight : ℚ) * cfg.tw raw.tourney_date)) ∧
    (st2.store.mutual_score raw.winner_id raw.loser_id =
      st.store.mutual_score raw.winner_id raw.loser_id +
        pyRound ((cfg.base_weight : ℚ) * cfg.tw raw.tourney_date * (wg : ℚ))) ∧
    (st2.store.mutual_score raw.loser_id raw.winner_id =
      st.store.mutual_score raw.loser_id raw.winner_id +
        pyRound ((cfg.base_weight : ℚ) * cfg.tw raw.tourney_date * (lg : ℚ))) := by
  have hst2 : st2.store = updateStores cfg st.store raw.winner_id raw.loser_id raw.tourney_level
      (cfg.tw raw.tourney_date) (get_surface raw.surface)
      (lookupClimate cfg.tourneys (filter_tourney_name raw.tourney_name)) wg lg := by
    unfold applyOutcome at happly
    rw [hscore] at happly
    injection happly with h
    rw [← h]
  rw [hst2]
  simp only [updateStores]
  refine ⟨?_, ?_, ?_, ?_, ?_, ?_⟩
  · simp [mAdd]
  · intro hclay
    rw [hclay]
    simp [mAdd]
  · intro hgrass
    have hgc : ("grass" : String) ≠ "clay" := by decide
    rw [hgrass]
    simp [mAdd, hgc]
  · intro hclay hgrass
    rw [if_pos ⟨hclay, hgrass⟩]
    simp [mAdd]
  · simp [mAdd, hne, Ne.symm hne]
  · simp [mAdd, hne, Ne.symm hne]

/-- C9 witness: the amended update equations at the concrete run. -/
theorem h2h_update_amended_witness :
    st2C.store.mutual_matches rawC.winner_id rawC.loser_id =
      stC.store.mutual_matches rawC.winner_id rawC.loser_id +
        pyRound ((cfgC.base_weight : ℚ) * cfgC.tw rawC.tourney_date) :=
  (h2h_update_amended cfgC stC rawC st2C 6 0 (by decide) (by decide) rfl).1

/-- C8: an unknown surface label (string form "nan"/"none" after lowering)
makes every feature read and every store update use "hard", and an empty
climate lookup yields the "tempered" bucket; both are plain defaults and
no error is raised (the functions are total). -/
theorem unknown_surface_climate_defaults :
    (∀ s : String, pyLower s = "nan" ∨ pyLower s = "none" → get_surface s = "hard") ∧
    (∀ (ts : List Tourney) (loc : String),
      ts.filter (fun t => t.location = loc) = [] → lookupClimate ts loc = "tempered") ∧
    (∀ (cfg : Config) (st : ProcState) (raw : RawMatch) (s : String),
      pyLower s = "nan" ∨ pyLower s = "none" →
      readRow cfg st { raw with surface := s } = readRow cfg st { raw with surface := "hard" } ∧
      (applyOutcome cfg st { raw with surface := s }).map ProcState.store =
        (applyOutcome cfg st { raw with surface := "hard" }).map ProcState.store) := by
  have hsurf : ∀ s : String, pyLower s = "nan" ∨ pyLower s = "none" → get_surface s = "hard" := by
    intro s h
    show (if pyLower s = "nan" ∨ pyLower s = "none" then "hard" else pyLower s) = "hard"
    exact if_pos h
  refine ⟨hsurf, ?_, ?_⟩
  · intro ts loc h
    unfold lookupClimate
    rw [h]
    rfl
  · intro cfg st raw s h
    have e1 : get_surface s = get_surface "hard" := by
      rw [hsurf s h]
      rfl
    constructor
    · unfold readRow rawFeatureRow finalizeRow
      dsimp only
      rw [e1]
    · unfold applyOutcome
      dsimp only
      rw [e1]
      cases hsc : pipeline_get_score raw.score with
      | error e => rfl
      | ok p =>
        obtain ⟨wg, lg⟩ := p
        rfl

/-- C8 witness: the surface default at a concrete unknown label. -/
theorem unknown_surface_climate_defaults_witness :
    get_surface "NaN" = "hard" ∧ lookupClimate [] "Berlin" = "tempered" :=
  ⟨unknown_surface_climate_defaults.1 "NaN" (by decide),
   unknown_surface_climate_defaults.2.1 [] "Berlin" (by decide)⟩

/-- C10: one match's store update touches only the winner's win counters,
the loser's loss counters (for the match's surface and climate keys), the
(winner, loser) mutual-win entries of the overall and surface tables, and
the two directed mutual-games entries; every conditional-stats entry of a
third player, the winner's loss counters, the loser's win counters, and
every other pairwise entry are unchanged. -/
theorem store_update_frame (cfg : Config) (st : ProcState) (raw : RawMatch) (st2 : ProcState)
    (hne : raw.winner_id ≠ raw.loser_id)
    (happly : applyOutcome cfg st raw = Except.ok st2) :
    (∀ p : Player, p ≠ raw.winner_id → p ≠ raw.loser_id →
      ∀ k : String, st2.store.cond_stats k p = st.store.cond_stats k p) ∧
    (st2.store.cond_stats "total_losses" raw.winner_id =
        st.store.cond_stats "total_losses" raw.winner_id ∧
      st2.store.cond_stats ("surface_" ++ get_surface raw.surface ++ "_losses") raw.winner_id =
        st.store.cond_stats ("surface_" ++ get_surface raw.surface ++ "_losses") raw.winner_id ∧
      st2.store.cond_stats
          ("climate_" ++ lookupClimate cfg.tourneys (filter_tourney_name raw.tourney_name) ++
            "_losses") raw.winner_id =
        st.store.cond_stats
          ("climate_" ++ lookupClimate cfg.tourneys (filter_tourney_name raw.tourney_name) ++
            "_losses") raw.winner_id) ∧
    (st2.store.cond_stats "total_wins" raw.loser_id =
        st.store.cond_stats "total_wins" raw.loser_id ∧
      st2.store.cond_stats ("surface_" ++ get_surface raw.surface ++ "_wins") raw.loser_id =
        st.store.cond_stats ("surface_" ++ get_surface raw.surface ++ "_wins") raw.loser_id ∧
      st2.store.cond_stats
          ("climate_" ++ lookupClimate cfg.tourneys (filter_tourney_name raw.tourney_name) ++
            "_wins") raw.loser_id =
        st.store.cond_stats
          ("climate_" ++ lookupClimate cfg.tourneys (filter_tourney_name raw.tourney_name) ++
            "_wins") raw.loser_id) ∧
    (∀ a b : Player, ¬(a = raw.winner_id ∧ b = raw.loser_id) →
      st2.store.mutual_matches a b = st.store.mutual_matches a b ∧
      st2.store.mm_clay a b = st.store.mm_clay a b ∧
      st2.store.mm_grass a b = st.store.mm_grass a b ∧
      st2.store.mm_hard a b = st.store.mm_hard a b) ∧
    (∀ a b : Player, ¬(a = raw.winner_id ∧ b = raw.loser_id) →
      ¬(a = raw.loser_id ∧ b = raw.winner_id) →
      st2.store.mutual_score a b = st.store.mutual_score a b) := by
  obtain ⟨wg, lg, hsc, hst2⟩ := applyOutcome_ok_elim cfg st raw st2 happly
  subst hst2
  simp only [updateStores]
  refine ⟨?_, ?_, ?_, ?_, ?_⟩
  · intro p hpw hpl k
    simp [csAdd, hpw, hpl]
  · refine ⟨?_, ?_, ?_⟩
    · have k1 : ("total_losses" : String) ≠ "total_wins" := by decide
      simp [csAdd, hne, k1, Ne.symm (sw_ne_tl (get_surface raw.surface)),
        Ne.symm (cw_ne_tl (lookupClimate cfg.tourneys (filter_tourney_name raw.tourney_name)))]
    · simp [csAdd, hne, sl_ne_tw (get_surface raw.surface),
        sl_ne_sw_self (get_surface raw.surface),
        surface_ne_climate_key (get_surface raw.surface) "_losses"
          (lookupClimate cfg.tourneys (filter_tourney_name raw.tourney_name)) "_wins"]
    · simp [csAdd, hne,
        cl_ne_tw (lookupClimate cfg.tourneys (filter_tourney_name raw.tourney_name)),
        cl_ne_cw_self (lookupClimate cfg.tourneys (filter_tourney_name raw.tourney_name)),
        Ne.symm (surface_ne_climate_key (get_surface raw.surface) "_wins"
          (lookupClimate cfg.tourneys (filter_tourney_name raw.tourney_name)) "_losses")]
  · refine ⟨?_, ?_, ?_⟩
    · have k1 : ("total_wins" : String) ≠ "total_losses" := by decide
      simp [csAdd, Ne.symm hne, k1, Ne.symm (sl_ne_tw (get_surface raw.surface)),
        Ne.symm (cl_ne_tw (lookupClimate cfg.tourneys (filter_tourney_name raw.tourney_name)))]
    · simp [csAdd, Ne.symm hne, sw_ne_tl (get_surface raw.surface),
        Ne.symm (sl_ne_sw_self (get_surface raw.surface)),
        surface_ne_climate_key (get_surface raw.surface) "_wins"
          (lookupClimate cfg.tourneys (filter_tourney_name raw.tourney_name)) "_losses"]
    · simp [csAdd, Ne.symm hne,
        cw_ne_tl (lookupClimate cfg.tourneys (filter_tourney_name raw.tourney_name)),
        Ne.symm (cl_ne_cw_self (lookupClimate cfg.tourneys (filter_tourney_name raw.tourney_name))),
        Ne.symm (surface_ne_climate_key (get_surface raw.surface) "_losses"
          (lookupClimate cfg.tourneys (filter_tourney_name raw.tourney_name)) "_wins")]
  · intro a b hab
    refine ⟨by simp [mAdd, hab], ?_, ?_, ?_⟩
    · split
      · simp [mAdd, hab]
      · rfl
    · split
      · simp [mAdd, hab]
      · rfl
    · split
      · simp [mAdd, hab]
      · rfl
  · intro a b hab hba
    simp [mAdd, hab, hba]

/-- C10 witness: a third player's entry is unchanged at the concrete run. -/
theorem store_update_frame_witness :
    st2C.store.cond_stats "total_wins" 5 = stC.store.cond_stats "total_wins" 5 :=
  (store_update_frame cfgC stC rawC st2C (by decide) rfl).1 5 (by decide) (by decide) "total_wins"

theorem readRow_outcome (cfg : Config) (st : ProcState) (raw : RawMatch) :
    (readRow cfg st raw).outcome = if st.i % 2 = 0 then -1 else 1 := by
  unfold readRow
  split
  · rfl
  · rfl

theorem processOne_i (cfg : Config) (st : ProcState) (raw : RawMatch)
    (row : MatchRow) (st2 : ProcState)
    (h : processOne cfg st raw = Except.ok (row, st2)) : st2.i = st.i + 1 := by
  obtain ⟨ha, _⟩ := processOne_ok_elim cfg st raw row st2 h
  obtain ⟨wg, lg, hsc, hst2⟩ := applyOutcome_ok_elim cfg _ raw st2 ha
  rw [hst2]
  show (advanceWindow st raw.tourney_date).i + 1 = st.i + 1
  rw [advanceWindow_i]

theorem outcome_neg_count (cfg : Config) :
    ∀ (ms : List RawMatch) (st : ProcState) (rows : List MatchRow) (stF : ProcState),
      runProcess cfg st ms = Except.ok (rows, stF) →
      (rows.filter (fun r => r.outcome = -1)).length =
        if st.i % 2 = 0 then (ms.length + 1) / 2 else ms.length / 2 := by
  intro ms
  induction ms with
  | nil =>
    intro st rows stF h
    simp only [runProcess] at h
    injection h with h1
    have h2 := congrArg Prod.fst h1
    dsimp only at h2
    rw [← h2]
    simp
  | cons raw rest ih =>
    intro st rows stF h
    obtain ⟨row, st2, rows2, hp, hr, hrows⟩ := runProcess_cons_elim cfg st raw rest rows stF h
    subst hrows
    have hi2 : st2.i = st.i + 1 := processOne_i cfg st raw row st2 hp
    obtain ⟨ha, hrow⟩ := processOne_ok_elim cfg st raw row st2 hp
    have hout : row.outcome = if st.i % 2 = 0 then -1 else 1 := by
      rw [hrow, readRow_outcome, advanceWindow_i]
    have hrest := ih st2 rows2 stF hr
    rw [hi2] at hrest
    by_cases hpar : st.i % 2 = 0
    · have hodd : ¬((st.i + 1) % 2 = 0) := by omega
      rw [if_neg hodd] at hrest
      rw [if_pos hpar] at hout
      rw [if_pos hpar]
      simp only [List.filter_cons, hout]
      simp only [List.length_cons] at hrest ⊢
      norm_num
      rw [hrest]
      omega
    · have heven : (st.i + 1) % 2 = 0 := by omega
      rw [if_pos heven] at hrest
      rw [if_neg hpar] at hout
      rw [if_neg hpar]
      simp only [List.filter_cons, hout]
      norm_num
      rw [hrest]

/-- C2 (amended): for a row at an even processing index, every numeric
feature and the outcome are the negation of what the same read would have
produced at an odd index (outcome −1 instead of 1); odd-index rows are
emitted unflipped with outcome 1; across a full run started at index 0,
exactly ceil(N/2) rows carry outcome −1. However the player slots are NOT
swapped: player_1 always holds the winner id and player_2 the loser id,
for flipped and unflipped rows alike. -/
theorem balancing_amended (cfg : Config) (st : ProcState) (raw : RawMatch)
    (heven : st.i % 2 = 0) :
    ((readRow cfg st raw).rel_total_wins =
        -(readRow cfg { st with i := st.i + 1 } raw).rel_total_wins ∧
      (readRow cfg st raw).rel_surface_wins =
        -(readRow cfg { st with i := st.i + 1 } raw).rel_surface_wins ∧
      (readRow cfg st raw).mutual_wins =
        -(readRow cfg { st with i := st.i + 1 } raw).mutual_wins ∧
      (readRow cfg st raw).mutual_surface_wins =
        -(readRow cfg { st with i := st.i + 1 } raw).mutual_surface_wins ∧
      (readRow cfg st raw).mutual_games =
        -(readRow cfg { st with i := st.i + 1 } raw).mutual_games ∧
      (readRow cfg st raw).rank_diff =
        -(readRow cfg { st with i := st.i + 1 } raw).rank_diff ∧
      (readRow cfg st raw).points_grad_diff =
        -(readRow cfg { st with i := st.i + 1 } raw).points_grad_diff ∧
      (readRow cfg st raw).home_advantage =
        -(readRow cfg { st with i := st.i + 1 } raw).home_advantage ∧
      (readRow cfg st raw).rel_climate_wins =
        -(readRow cfg { st with i := st.i + 1 } raw).rel_climate_wins ∧
      (readRow cfg st raw).rel_recent_wins =
        -(readRow cfg { st with i := st.i + 1 } raw).rel_recent_wins ∧
      (readRow cfg st raw).rel_tourney_games =
        -(readRow cfg { st with i := st.i + 1 } raw).rel_tourney_games ∧
      (readRow cfg st raw).age_diff =
        -(readRow cfg { st with i := st.i + 1 } raw).age_diff ∧
      (readRow cfg st raw).outcome = -1 ∧
      (readRow cfg { st with i := st.i + 1 } raw).outcome = 1 ∧
      (readRow cfg st raw).player_1 = (raw.winner_id : ℤ) ∧
      (readRow cfg st raw).player_2 = (raw.loser_id : ℤ) ∧
      (readRow cfg { st with i := st.i + 1 } raw).player_1 = (raw.winner_id : ℤ) ∧
      (readRow cfg { st with i := st.i + 1 } raw).player_2 = (raw.loser_id : ℤ)) ∧
    (∀ (st0 : ProcState) (ms : List RawMatch) (rows : List MatchRow) (stF : ProcState),
      st0.i = 0 → runProcess cfg st0 ms = Except.ok (rows, stF) →
      (rows.filter (fun r => r.outcome = -1)).length = (ms.length + 1) / 2) := by
  constructor
  · have hodd : ¬(({ st with i := st.i + 1 } : ProcState).i % 2 = 0) := by
      show ¬((st.i + 1) % 2 = 0)
      omega
    have h1 : readRow cfg st raw = finalizeRow cfg raw (rowNeg (rawFeatureRow cfg st raw)) := by
      unfold readRow
      rw [if_pos heven]
    have h2 : readRow cfg { st with i := st.i + 1 } raw =
        finalizeRow cfg raw (rawFeatureRow cfg { st with i := st.i + 1 } raw) := by
      unfold readRow
      rw [if_neg hodd]
    have h3 : rawFeatureRow cfg { st with i := st.i + 1 } raw = rawFeatureRow cfg st raw := rfl
    rw [h1, h2, h3]
    exact ⟨rfl, rfl, rfl, rfl, rfl, rfl, rfl, rfl, rfl, rfl, rfl, rfl, rfl, rfl, rfl, rfl,
      rfl, rfl⟩
  · intro st0 ms rows stF h0 hrun
    have hc := outcome_neg_count cfg ms st0 rows stF hrun
    rw [h0] at hc
    simpa using hc

/-- C2 witness: the flipped-row count over the concrete two-match run. -/
theorem balancing_amended_witness :
    (exRows.filter (fun r => r.outcome = -1)).length = (exMs.length + 1) / 2 :=
  (balancing_amended exCfg exSt0 exM1 (by decide)).2 exSt0 exMs exRows exStF rfl rfl

/-- C2 counterexample: index 0 is selected by the parity rule, so the row is
balanced (sign-flipped, outcome -1), yet the player slots are not swapped:
player_1 still holds the winner (7) and player_2 the loser (9), because the
source assigns them after the negation. -/
theorem balancing_swap_counterexample :
    exSt0.i % 2 = 0 ∧
    exRawB.winner_id = 7 ∧ exRawB.loser_id = 9 ∧
    (readRow exCfg exSt0 exRawB).outcome = -1 ∧
    (readRow exCfg exSt0 exRawB).player_1 = 7 ∧
    (readRow exCfg exSt0 exRawB).player_2 = 9 ∧
    ¬((readRow exCfg exSt0 exRawB).player_1 = 9 ∧
      (readRow exCfg exSt0 exRawB).player_2 = 7) := by decide

theorem step_window_inv (cfg : Config) (st : ProcState) (raw : RawMatch)
    (row : MatchRow) (st2 : ProcState)
    (hlim : st.date_limit = threeMonthsBefore st.current_tourney_date)
    (hwin : ∀ m ∈ st.recent_matches, st.date_limit ≤ m.tourney_date)
    (hd : st.current_tourney_date ≤ raw.tourney_date)
    (hp : processOne cfg st raw = Except.ok (row, st2)) :
    st2.date_limit = threeMonthsBefore st2.current_tourney_date ∧
    (∀ m ∈ st2.recent_matches, st2.date_limit ≤ m.tourney_date) ∧
    st2.current_tourney_date = raw.tourney_date := by
  obtain ⟨ha, _⟩ := processOne_ok_elim cfg st raw row st2 hp
  obtain ⟨wg, lg, hsc, hst2⟩ := applyOutcome_ok_elim cfg _ raw st2 ha
  subst hst2
  show (advanceWindow st raw.tourney_date).date_limit =
      threeMonthsBefore (advanceWindow st raw.tourney_date).current_tourney_date ∧
    (∀ m ∈ (advanceWindow st raw.tourney_date).recent_matches ++ [raw],
      (advanceWindow st raw.tourney_date).date_limit ≤ m.tourney_date) ∧
    (advanceWindow st raw.tourney_date).current_tourney_date = raw.tourney_date
  unfold advanceWindow
  by_cases hlt : st.current_tourney_date < raw.tourney_date
  · rw [if_pos hlt]
    refine ⟨rfl, ?_, rfl⟩
    intro m hm
    rcases List.mem_append.mp hm with hm2 | hm2
    · exact of_decide_eq_true (List.mem_filter.mp hm2).2
    · rw [List.mem_singleton.mp hm2]
      show threeMonthsBefore raw.tourney_date ≤ raw.tourney_date
      unfold threeMonthsBefore
      omega
  · rw [if_neg hlt]
    have hde : st.current_tourney_date = raw.tourney_date := by omega
    refine ⟨hlim, ?_, hde⟩
    intro m hm
    rcases List.mem_append.mp hm with hm2 | hm2
    · exact hwin m hm2
    · rw [List.mem_singleton.mp hm2, hlim, hde]
      unfold threeMonthsBefore
      omega

theorem run_window_inv (cfg : Config) :
    ∀ (ms : List RawMatch) (st : ProcState) (rows : List MatchRow) (stF : ProcState),
      st.date_limit = threeMonthsBefore st.current_tourney_date →
      (∀ m ∈ st.recent_matches, st.date_limit ≤ m.tourney_date) →
      datesMono st.current_tourney_date ms →
      runProcess cfg st ms = Except.ok (rows, stF) →
      stF.date_limit = threeMonthsBefore stF.current_tourney_date ∧
      (∀ m ∈ stF.recent_matches, stF.date_limit ≤ m.tourney_date) := by
  intro ms
  induction ms with
  | nil =>
    intro st rows stF hlim hwin hmono h
    simp only [runProcess] at h
    injection h with h1
    have h2 := congrArg Prod.snd h1
    dsimp only at h2
    rw [← h2]
    exact ⟨hlim, hwin⟩
  | cons raw rest ih =>
    intro st rows stF hlim hwin hmono h
    obtain ⟨row, st2, rows2, hp, hr, hrows⟩ := runProcess_cons_elim cfg st raw rest rows stF h
    obtain ⟨hlim2, hwin2, hcur2⟩ := step_window_inv cfg st raw row st2 hlim hwin hmono.1 hp
    apply ih st2 rows2 stF hlim2 hwin2 _ hr
    rw [hcur2]
    exact hmono.2

/-- C7: whenever the window is advanced (a strictly later tournament date),
every match remaining in the pruned window is dated at least the new
reference date minus the 3-month span; and along a date-sorted run starting
from a consistent window state, the retention invariant holds at the end,
so a match dated more than 3 months before the final reference date is
absent from the window. -/
theorem window_retention (cfg : Config) :
    (∀ (st : ProcState) (d : ℤ), st.current_tourney_date < d →
      ∀ m ∈ (advanceWindow st d).recent_matches, threeMonthsBefore d ≤ m.tourney_date) ∧
    (∀ (ms : List RawMatch) (st : ProcState) (rows : List MatchRow) (stF : ProcState),
      st.date_limit = threeMonthsBefore st.current_tourney_date →
      (∀ m ∈ st.recent_matches, st.date_limit ≤ m.tourney_date) →
      datesMono st.current_tourney_date ms →
      runProcess cfg st ms = Except.ok (rows, stF) →
      (stF.date_limit = threeMonthsBefore stF.current_tourney_date ∧
        ∀ m ∈ stF.recent_matches, stF.date_limit ≤ m.tourney_date) ∧
      ∀ m : RawMatch, m.tourney_date < threeMonthsBefore stF.current_tourney_date →
        m ∉ stF.recent_matches) := by
  constructor
  · intro st d hlt m hm
    unfold advanceWindow at hm
    rw [if_pos hlt] at hm
    exact of_decide_eq_true (List.mem_filter.mp hm).2
  · intro ms st rows stF hlim hwin hmono hrun
    obtain ⟨hlimF, hwinF⟩ := run_window_inv cfg ms st rows stF hlim hwin hmono hrun
    refine ⟨⟨hlimF, hwinF⟩, ?_⟩
    intro m hmdate hmem
    have := hwinF m hmem
    rw [hlimF] at this
    omega

/-- C7 witness: the invariant at the end of the concrete two-match run. -/
theorem window_retention_witness :
    exStF.date_limit = threeMonthsBefore exStF.current_tourney_date :=
  (((window_retention exCfg).2 exMs exSt0 exRows exStF rfl
    (by intro m hm; cases hm) (by decide) rfl).1).1

/-- C1: temporal causality of the sequential pass. In a successful run, the
row emitted for match i is read from `prefixState … i` — the state obtained
by applying the store updates of exactly the first i matches (so it cannot
reflect match i or any later match) — and the outcome update for match i
turns that state into `prefixState … (i+1)`, the state every feature read
of match i+1 uses. In particular, for two matches between the same players,
the later row's relative-total-wins feature is computed from a store that
already contains the earlier match's update, while the earlier row's is
computed from a store that cannot contain the later match's. -/
theorem process_causality (cfg : Config) (st : ProcState) (ms : List RawMatch)
    (rows : List MatchRow) (stF : ProcState)
    (hrun : runProcess cfg st ms = Except.ok (rows, stF)) :
    ∀ i m, ms[i]? = some m →
      runProcess cfg st (ms.take i) = Except.ok (rows.take i, prefixState cfg st ms i) ∧
      rows[i]? = some (readRow cfg (advanceWindow (prefixState cfg st ms i) m.tourney_date) m) ∧
      applyOutcome cfg (advanceWindow (prefixState cfg st ms i) m.tourney_date) m =
        Except.ok (prefixState cfg st ms (i + 1)) ∧
      runProcess cfg st (ms.take (i + 1)) =
        Except.ok (rows.take (i + 1), prefixState cfg st ms (i + 1)) := by
  revert hrun
  induction ms generalizing st rows with
  | nil =>
    intro hrun i m hm
    simp at hm
  | cons raw rest ih =>
    intro hrun i m hm
    obtain ⟨row, st2, rows2, hp, hr, hrows⟩ := runProcess_cons_elim cfg st raw rest rows stF hrun
    subst hrows
    obtain ⟨ha, hrowEq⟩ := processOne_ok_elim cfg st raw row st2 hp
    cases i with
    | zero =>
      have hm0 : m = raw := by
        rw [List.getElem?_cons_zero] at hm
        exact (Option.some.injEq raw m ▸ hm).symm
      subst hm0
      have hpre0 : prefixState cfg st (m :: rest) 0 = st := rfl
      have hrun1 : runProcess cfg st [m] = Except.ok ([row], st2) :=
        runProcess_cons_intro cfg st m [] row st2 [] st2 hp rfl
      have hpre1 : prefixState cfg st (m :: rest) 1 = st2 := by
        unfold prefixState
        rw [show (m :: rest).take 1 = [m] from rfl, hrun1]
        rfl
      refine ⟨?_, ?_, ?_, ?_⟩
      · rw [hpre0]
        rfl
      · rw [hpre0, List.getElem?_cons_zero, hrowEq]
      · rw [hpre0, hpre1]
        exact ha
      · rw [hpre1]
        show runProcess cfg st [m] = Except.ok ([row], st2)
        exact hrun1
    | succ j =>
      have hmj : rest[j]? = some m := by
        rw [List.getElem?_cons_succ] at hm
        exact hm
      obtain ⟨c1, c2, c3, c4⟩ := ih st2 rows2 hr j m hmj
      have hlift : ∀ (k : ℕ) (stK : ProcState),
          runProcess cfg st2 (rest.take k) = Except.ok (rows2.take k, stK) →
          runProcess cfg st ((raw :: rest).take (k + 1)) =
            Except.ok ((row :: rows2).take (k + 1), stK) ∧
          prefixState cfg st (raw :: rest) (k + 1) = stK := by
        intro k stK hk
        have hcons : runProcess cfg st (raw :: rest.take k) =
            Except.ok (row :: rows2.take k, stK) :=
          runProcess_cons_intro cfg st raw (rest.take k) row st2 (rows2.take k) stK hp hk
        constructor
        · exact hcons
        · unfold prefixState okState
          rw [show (raw :: rest).take (k + 1) = raw :: rest.take k from rfl, hcons]
      obtain ⟨e1, e1b⟩ := hlift j (prefixState cfg st2 rest j) c1
      obtain ⟨e2, e2b⟩ := hlift (j + 1) (prefixState cfg st2 rest (j + 1)) c4
      refine ⟨?_, ?_, ?_, ?_⟩
      · rw [e1b]
        exact e1
      · rw [e1b, List.getElem?_cons_succ]
        exact c2
      · rw [e1b, e2b]
        exact c3
      · rw [e2b]
        exact e2

/-- C1 witness: the causality decomposition at index 1 of the concrete run. -/
theorem process_causality_witness :
    runProcess exCfg exSt0 (exMs.take 1) =
      Except.ok (exRows.take 1, prefixState exCfg exSt0 exMs 1) ∧
    exRows[1]? =
      some (readRow exCfg (advanceWindow (prefixState exCfg exSt0 exMs 1) exM2.tourney_date) exM2) ∧
    applyOutcome exCfg (advanceWindow (prefixState exCfg exSt0 exMs 1) exM2.tourney_date) exM2 =
      Except.ok (prefixState exCfg exSt0 exMs 2) ∧
    runProcess exCfg exSt0 (exMs.take 2) =
      Except.ok (exRows.take 2, prefixState exCfg exSt0 exMs 2) :=
  process_causality exCfg exSt0 exMs exRows exStF rfl 1 exM2 rfl

end TennisPrep
